import Mathlib

/-!
Formal model of the DarkAges bot-swarm stress-test protocol client
(tools/stress-test: bot_swarm.py, enhanced_bot_swarm.py,
test_1000_connections.py).

Byte sequences are `List ℕ` (each entry one octet), machine integers are
`ℕ`/`ℤ` with explicit reductions modulo powers of two, and Python floats are
idealised as `ℚ`.  Each definition is a direct translation of the Python
function it is named after; the few definitions that follow the
specification's wording instead (for comparison against the code) say so in
their doc comment.
-/

/-- Python `int(x)`: truncation of a real number toward zero. -/
def pyTrunc (q : ℚ) : ℤ := if 0 ≤ q then ⌊q⌋ else ⌈q⌉

/-- One byte, as `struct.pack` of `B` (value reduced mod 256). -/
def u8bytes (n : ℕ) : List ℕ := [n % 256]

/-- Two little-endian bytes, as `struct.pack` of a 16-bit value. -/
def u16le (n : ℕ) : List ℕ := [n % 256, n / 256 % 256]

/-- Four little-endian bytes, as `struct.pack` of `I`. -/
def u32le (n : ℕ) : List ℕ :=
  [n % 256, n / 256 % 256, n / 65536 % 256, n / 16777216 % 256]

/-- Eight little-endian bytes, as `struct.pack` of `Q`. -/
def u64le (n : ℕ) : List ℕ :=
  u32le (n % 4294967296) ++ u32le (n / 4294967296)

/-- `struct.pack` of `h`: a signed 16-bit value in two's complement,
little-endian (the representative of `z` modulo 2^16). -/
def i16le (z : ℤ) : List ℕ := u16le (z % 65536).toNat

/-- `GameBot._create_connection_request`:
`struct.pack('<BIQ', PACKET_CONNECTION_REQUEST, PROTOCOL_VERSION, bot_id)`
with `PACKET_CONNECTION_REQUEST = 3` and `PROTOCOL_VERSION = 1`. -/
def create_connection_request (bot_id : ℕ) : List ℕ :=
  u8bytes 3 ++ u32le 1 ++ u64le bot_id

/-- The eight boolean input fields of `GameBot.input_state`. -/
structure InputState where
  forward : Bool
  backward : Bool
  left : Bool
  right : Bool
  jump : Bool
  attack : Bool
  block : Bool
  sprint : Bool
deriving Repr, DecidableEq

/-- The flag byte built in `GameBot._create_input_packet` by or-ing the
`INPUT_*` bit constants for each active input. -/
def build_input_flags (s : InputState) : ℕ :=
  (if s.forward then 1 else 0) |||
  (if s.backward then 2 else 0) |||
  (if s.left then 4 else 0) |||
  (if s.right then 8 else 0) |||
  (if s.jump then 16 else 0) |||
  (if s.attack then 32 else 0) |||
  (if s.block then 64 else 0) |||
  (if s.sprint then 128 else 0)

/-- Yaw quantization in `GameBot._create_input_packet`:
`yaw_quantized = int(yaw * 10000) % 65536`, then values above 32767 are
shifted down by 65536. -/
def yaw_quantized (yaw : ℚ) : ℤ :=
  if 32767 < pyTrunc (yaw * 10000) % 65536
  then pyTrunc (yaw * 10000) % 65536 - 65536
  else pyTrunc (yaw * 10000) % 65536

/-- Pitch quantization in `GameBot._create_input_packet`:
`pitch_quantized = int(pitch * 10000)`, with no modulo wrap. -/
def pitch_quantized (pitch : ℚ) : ℤ := pyTrunc (pitch * 10000)

/-- Modelled from the spec's words (claim C2): the same wrapping quantizer
but using rounding, `round(yaw * 10000) mod 65536` reinterpreted as signed
16-bit, instead of the code's truncation. -/
def yawQuantizedClaim (yaw : ℚ) : ℤ :=
  if 32767 < round (yaw * 10000) % 65536
  then round (yaw * 10000) % 65536 - 65536
  else round (yaw * 10000) % 65536

/-- `GameBot._create_input_packet`:
`struct.pack('<B I I B h h I', PACKET_CLIENT_INPUT, sequence,
timestamp, flags, yaw_quantized, pitch_quantized, target_entity)` where
`PACKET_CLIENT_INPUT = 1` and `timestamp = int(time*1000) % 0xFFFFFFFF`. -/
def create_input_packet (sequence time_ms : ℕ) (s : InputState)
    (yaw pitch : ℚ) (target_entity : ℕ) : List ℕ :=
  u8bytes 1 ++ u32le sequence ++ u32le (time_ms % 4294967295) ++
  u8bytes (build_input_flags s) ++ i16le (yaw_quantized yaw) ++
  i16le (pitch_quantized pitch) ++ u32le target_entity

/-- Checked byte access into an inbound datagram. -/
def byteAt (data : List ℕ) (i : ℕ) : Option ℕ := data[i]?

/-- Checked little-endian `struct.unpack('<I', data[i:i+4])`. -/
def u32opt (data : List ℕ) (i : ℕ) : Option ℕ := do
  let b0 ← byteAt data i
  let b1 ← byteAt data (i + 1)
  let b2 ← byteAt data (i + 2)
  let b3 ← byteAt data (i + 3)
  pure (b0 + 256 * b1 + 65536 * b2 + 16777216 * b3)

/-- Decoded fields of a ConnectionResponse packet
(`[type:u8][success:u8][connection_id:u32][entity_id:u32][server_tick:u32]
[server_time:u32]`). -/
structure ConnResponseMsg where
  success : ℕ
  connection_id : ℕ
  entity_id : ℕ
  server_tick : ℕ
  server_time : ℕ
deriving Repr, DecidableEq

/-- Decoded header fields of a ServerSnapshot packet
(`[type:u8][server_tick:u32][baseline_tick:u32][server_time:u32]
[last_processed_input:u32]`). -/
structure SnapshotHeader where
  server_tick : ℕ
  baseline_tick : ℕ
  server_time : ℕ
  last_processed_input : ℕ
deriving Repr, DecidableEq

/-- Decode failure: the buffer is shorter than the packet's fixed header. -/
inductive DecodeError where
  | ShortBuffer
deriving Repr, DecidableEq

/-- The field reads of `GameBot._parse_connection_response`, each one
bounds-checked. -/
def readConnResponse (data : List ℕ) : Option ConnResponseMsg := do
  let s ← byteAt data 1
  let cid ← u32opt data 2
  let eid ← u32opt data 6
  let tick ← u32opt data 10
  let tms ← u32opt data 14
  pure (ConnResponseMsg.mk s cid eid tick tms)

/-- The field reads of `GameBot._parse_snapshot`, each one bounds-checked. -/
def readSnapshotHeader (data : List ℕ) : Option SnapshotHeader := do
  let tick ← u32opt data 1
  let base ← u32opt data 5
  let tms ← u32opt data 9
  let lpi ← u32opt data 13
  pure (SnapshotHeader.mk tick base tms lpi)

/-- ConnectionResponse decoding with the guard of
`GameBot._parse_connection_response` (`if len(data) < 18: return`), the
dropped-packet early return rendered as the spec's ShortBuffer error. -/
def decode_connection_response (data : List ℕ) :
    Except DecodeError ConnResponseMsg :=
  if data.length < 18 then .error .ShortBuffer
  else
    match readConnResponse data with
    | some m => .ok m
    | none => .error .ShortBuffer

/-- ServerSnapshot header decoding with the guard of
`GameBot._parse_snapshot` (`if len(data) < 17: return`). -/
def decode_snapshot_header (data : List ℕ) :
    Except DecodeError SnapshotHeader :=
  if data.length < 17 then .error .ShortBuffer
  else
    match readSnapshotHeader data with
    | some m => .ok m
    | none => .error .ShortBuffer

/-- Unchecked byte access (`data[i]`), as used once the length guard has
passed; out-of-range indices default to 0. -/
def byteD (data : List ℕ) (i : ℕ) : ℕ := data.getD i 0

/-- Unchecked little-endian `struct.unpack('<I', data[i:i+4])`. -/
def u32at (data : List ℕ) (i : ℕ) : ℕ :=
  byteD data i + 256 * byteD data (i + 1) + 65536 * byteD data (i + 2) +
    16777216 * byteD data (i + 3)

/-- The fields of `GameBot` touched by the connect/receive paths. -/
structure GameBot where
  connected : Bool
  connection_id : Option ℕ
  entity_id : Option ℕ
  server_tick : ℕ
  server_time : ℕ
  start_time : ℚ
  snapshot_count : ℕ
  last_processed_input : ℕ
deriving Repr, DecidableEq

/-- `GameBot.__init__`: disconnected, no identity, zeroed counters. -/
def init_bot : GameBot :=
  { connected := false
    connection_id := none
    entity_id := none
    server_tick := 0
    server_time := 0
    start_time := 0
    snapshot_count := 0
    last_processed_input := 0 }

/-- `GameBot._parse_connection_response`: on a buffer of at least 18 bytes
whose success byte `data[1]` is nonzero, populate the session identity,
set `connected` and record `start_time`; otherwise leave the bot
unchanged. -/
def parse_connection_response (data : List ℕ) (now : ℚ) (bot : GameBot) : GameBot :=
  if data.length < 18 then bot
  else if byteD data 1 ≠ 0 then
    { bot with
      connection_id := some (u32at data 2)
      entity_id := some (u32at data 6)
      server_tick := u32at data 10
      server_time := u32at data 14
      connected := true
      start_time := now }
  else bot

/-- Outcome reported by `GameBot.connect` after the response wait. -/
inductive ConnectResult where
  | accepted
  | rejected
deriving Repr, DecidableEq

/-- The decision at the end of `GameBot.connect`: report success when
`self.connected` was set by the response parser, rejection otherwise. -/
def connect_decision (bot : GameBot) : ConnectResult :=
  if bot.connected then .accepted else .rejected

/-- `GameBot._parse_snapshot`: on a buffer of at least 17 bytes, count the
snapshot and take `server_tick`, `server_time` and `last_processed_input`
from the header (the baseline tick is read into a local and dropped);
otherwise leave the bot unchanged. -/
def parse_snapshot (data : List ℕ) (bot : GameBot) : GameBot :=
  if data.length < 17 then bot
  else
    { bot with
      snapshot_count := bot.snapshot_count + 1
      server_tick := u32at data 1
      server_time := u32at data 9
      last_processed_input := u32at data 13 }

/-- Per-bot outcome of the concurrent connect phase in `BotSwarm.run`:
`connect()` returned True, returned False, or raised. -/
inductive ConnectOutcome where
  | success
  | failure
  | error
deriving Repr, DecidableEq

/-- Whether a gathered connect result counts the bot into
`connected_bots`. -/
def isSuccess : ConnectOutcome → Bool
  | .success => true
  | _ => false

/-- How many times `BotSwarm.run` calls `disconnect()` on each bot: the
no-connections branch returns `[]` early, before the teardown loop; on the
normal path the final loop disconnects every bot in `self.bots` once. -/
def run_disconnect_counts (results : List ConnectOutcome) : List ℕ :=
  if (results.filter isSuccess).isEmpty then results.map fun _ => 0
  else results.map fun _ => 1

/-- The acceptance gate in `StressTest.run` (test_1000_connections.py):
`if connected < self.num_connections * 0.95: return False`, else the run
phase proceeds. -/
def stress_test_proceeds (num_connections connected : ℕ) : Bool :=
  if (connected : ℚ) < (num_connections : ℚ) * (95 / 100) then false
  else true

/-- The gate in `BotSwarm.run` (bot_swarm.py): the run phase proceeds
unless `connected_bots` is empty. -/
def swarm_run_proceeds (connected_count : ℕ) : Bool :=
  if connected_count = 0 then false else true

/-- `BotSwarm._percentile` (enhanced_bot_swarm.py): empty data reports 0;
otherwise sort ascending and return the element at
`min(int(n * percentile / 100), n - 1)`. -/
def percentile (data : List ℚ) (p : ℕ) : ℚ :=
  if data.isEmpty then 0
  else
    (data.insertionSort (· ≤ ·)).getD
      (min (pyTrunc (((data.insertionSort (· ≤ ·)).length : ℚ) * p / 100)).toNat
        ((data.insertionSort (· ≤ ·)).length - 1)) 0

/-- Modelled from the spec's words (claim C8): the nearest-rank percentile,
sort ascending and take index `floor(n * q)` clamped to the last index. -/
def nearestRankClaim (data : List ℚ) (q : ℚ) : ℚ :=
  (data.insertionSort (· ≤ ·)).getD
    (min (⌊(data.length : ℚ) * q⌋).toNat (data.length - 1)) 0

/-- The upstream verdict in `print_summary` (bot_swarm.py):
`avg_up_per_bot = (total_bytes_sent / len(stats)) / duration` compared with
`MAX_UPSTREAM_BYTES_PER_SEC = 2048`. -/
def up_ok (total_bytes_sent stats_len : ℕ) (duration : ℚ) : Bool :=
  decide ((total_bytes_sent : ℚ) / (stats_len : ℚ) / duration ≤ 2048)

/-- The downstream verdict in `print_summary` (bot_swarm.py):
`avg_down_per_bot = (total_bytes_received / len(stats)) / duration` compared
with `MAX_DOWNSTREAM_BYTES_PER_SEC = 20480`. -/
def down_ok (total_bytes_received stats_len : ℕ) (duration : ℚ) : Bool :=
  decide ((total_bytes_received : ℚ) / (stats_len : ℚ) / duration ≤ 20480)

/-- The elapsed-time denominator of `GameBot.get_stats`:
`max(time.time() - self.start_time, 0.001) if self.start_time else 0.001`
(a zero `start_time` is falsy in Python). -/
def get_stats_elapsed (now start_time : ℚ) : ℚ :=
  if start_time ≠ 0 then max (now - start_time) (1 / 1000) else 1 / 1000

/-- The per-second rate fields of the dictionary built by
`GameBot.get_stats`. -/
structure BotRates where
  packets_sent_per_sec : ℚ
  packets_received_per_sec : ℚ
  bytes_sent_per_sec : ℚ
  bytes_received_per_sec : ℚ
  snapshots_per_sec : ℚ
deriving Repr, DecidableEq

/-- The rate computations of `GameBot.get_stats`: each counter divided by
the clamped elapsed time. -/
def get_stats_rates (packets_sent packets_received bytes_sent bytes_received
    snapshot_count : ℕ) (now start_time : ℚ) : BotRates :=
  { packets_sent_per_sec := (packets_sent : ℚ) / get_stats_elapsed now start_time
    packets_received_per_sec :=
      (packets_received : ℚ) / get_stats_elapsed now start_time
    bytes_sent_per_sec := (bytes_sent : ℚ) / get_stats_elapsed now start_time
    bytes_received_per_sec :=
      (bytes_received : ℚ) / get_stats_elapsed now start_time
    snapshots_per_sec := (snapshot_count : ℚ) / get_stats_elapsed now start_time }

/-- Truncation toward zero moves a rational by strictly less than one. -/
lemma abs_sub_pyTrunc_lt (q : ℚ) : |q - pyTrunc q| < 1 := by
  rw [pyTrunc]
  split
  · rw [abs_sub_lt_iff]
    constructor
    · linarith [Int.sub_one_lt_floor q]
    · linarith [Int.floor_le q]
  · rw [abs_sub_lt_iff]
    constructor
    · linarith [Int.le_ceil q]
    · linarith [Int.ceil_lt_add_one q]

/-- On nonnegative rationals, Python truncation is the floor. -/
lemma pyTrunc_of_nonneg {q : ℚ} (h : 0 ≤ q) : pyTrunc q = ⌊q⌋ := if_pos h

/-- C1 (corrected): at a concrete valid input, the encoded ClientInput packet
is not 20 bytes long, contradicting the claimed size. -/
theorem c1_input_packet_size_counterexample :
    (create_input_packet 0 0
      (InputState.mk false false false false false false false false)
      0 0 0).length ≠ 20 := by
  have hy : yaw_quantized 0 = 0 := by
    rw [yaw_quantized, pyTrunc]
    norm_num
  have hp : pitch_quantized 0 = 0 := by
    rw [pitch_quantized, pyTrunc]
    norm_num
  simp [create_input_packet, u8bytes, u32le, i16le, u16le, hy, hp,
    build_input_flags]

/-- C1 (amended): for every field assignment, the encoded ConnectionRequest
is exactly 13 bytes and the encoded ClientInput is exactly 18 bytes (the
seven fields type:u8, sequence:u32, timestampMs:u32, inputFlags:u8,
yawQ:i16, pitchQ:i16, targetEntity:u32 total 18, not the 20 stated). -/
theorem c1_packet_sizes (bot_id sequence time_ms target_entity : ℕ)
    (s : InputState) (yaw pitch : ℚ) :
    (create_connection_request bot_id).length = 13 ∧
    (create_input_packet sequence time_ms s yaw pitch target_entity).length
      = 18 := by
  constructor
  · simp [create_connection_request, u8bytes, u32le, u64le]
  · simp [create_input_packet, u8bytes, u32le, i16le, u16le]

/-- C2 (counterexample): the encoder truncates instead of rounding — at
yaw = 0.00019 rad the code produces 1 where the claimed round-based
quantizer produces 2 — and for a wrapped angle such as yaw = 4 rad,
dividing the quantized value by 10000 recovers an angle 6.5536 rad away,
not within one quantization unit. -/
theorem c2_quantization_counterexample :
    yaw_quantized (19 / 100000) = 1 ∧
    yawQuantizedClaim (19 / 100000) = 2 ∧
    1 / 10000 < |(4 : ℚ) - (yaw_quantized 4 : ℚ) / 10000| := by
  have h1 : yaw_quantized (19 / 100000) = 1 := by
    have ht : pyTrunc (19 / 100000 * 10000) = 1 := by
      rw [pyTrunc]
      norm_num
    rw [yaw_quantized, ht]
    norm_num
  have h2 : yawQuantizedClaim (19 / 100000) = 2 := by
    have hr : round ((19 : ℚ) / 100000 * 10000) = 2 := by
      rw [round_eq]
      norm_num
    rw [yawQuantizedClaim, hr]
    norm_num
  have h3 : yaw_quantized 4 = -25536 := by
    have ht : pyTrunc ((4 : ℚ) * 10000) = 40000 := by
      rw [pyTrunc]
      norm_num
    rw [yaw_quantized, ht]
    norm_num
  refine ⟨h1, h2, ?_⟩
  rw [h3]
  rw [abs_of_nonneg (by norm_num)]
  norm_num

/-- C2 (amended): the encoder quantizes yaw as trunc(yaw*10000) mod 65536
reinterpreted as signed 16-bit and pitch as trunc(pitch*10000) without the
wrap (truncation toward zero, not rounding); dividing the quantized value
by 10000 recovers the angle to within one quantization unit whenever the
quantized value does not wrap (0 ≤ yaw*10000 ≤ 32767, |pitch|*10000 ≤
32767). -/
theorem c2_quantization_amended (yaw pitch : ℚ) (hy0 : 0 ≤ yaw)
    (hy : yaw * 10000 ≤ 32767) (_hp : |pitch| * 10000 ≤ 32767) :
    |yaw - (yaw_quantized yaw : ℚ) / 10000| < 1 / 10000 ∧
    |pitch - (pitch_quantized pitch : ℚ) / 10000| < 1 / 10000 := by
  have h0 : (0 : ℚ) ≤ yaw * 10000 := by positivity
  have hfl : pyTrunc (yaw * 10000) = ⌊yaw * 10000⌋ := pyTrunc_of_nonneg h0
  have hub : ⌊yaw * 10000⌋ ≤ 32767 := by
    calc ⌊yaw * 10000⌋ ≤ ⌊(32767 : ℚ)⌋ := Int.floor_le_floor hy
    _ = 32767 := by norm_num
  have hlb : 0 ≤ ⌊yaw * 10000⌋ := Int.floor_nonneg.mpr h0
  have hq : yaw_quantized yaw = ⌊yaw * 10000⌋ := by
    rw [yaw_quantized, hfl, Int.emod_eq_of_lt hlb (by omega), if_neg (by omega)]
  constructor
  · have h := abs_sub_pyTrunc_lt (yaw * 10000)
    rw [hfl] at h
    have heq : yaw - (⌊yaw * 10000⌋ : ℚ) / 10000 =
        (yaw * 10000 - ⌊yaw * 10000⌋) / 10000 := by ring
    rw [hq, heq, abs_div, abs_of_pos (show (0 : ℚ) < 10000 by norm_num),
      div_lt_div_iff₀ (by norm_num) (by norm_num)]
    linarith
  · have h := abs_sub_pyTrunc_lt (pitch * 10000)
    have heq : pitch - (pyTrunc (pitch * 10000) : ℚ) / 10000 =
        (pitch * 10000 - pyTrunc (pitch * 10000)) / 10000 := by ring
    rw [pitch_quantized, heq, abs_div,
      abs_of_pos (show (0 : ℚ) < 10000 by norm_num),
      div_lt_div_iff₀ (by norm_num) (by norm_num)]
    linarith

/-- C2 (witness): the amended recovery bound at yaw = pitch = 0.5 rad. -/
theorem c2_quantization_witness :
    (0 : ℚ) ≤ 1 / 2 ∧ (1 / 2 : ℚ) * 10000 ≤ 32767 ∧
    |(1 / 2 : ℚ)| * 10000 ≤ 32767 ∧
    (|(1 / 2 : ℚ) - (yaw_quantized (1 / 2) : ℚ) / 10000| < 1 / 10000 ∧
     |(1 / 2 : ℚ) - (pitch_quantized (1 / 2) : ℚ) / 10000| < 1 / 10000) :=
  ⟨by norm_num, by norm_num, by rw [abs_of_pos] <;> norm_num,
   c2_quantization_amended (1 / 2) (1 / 2) (by norm_num) (by norm_num)
     (by rw [abs_of_pos] <;> norm_num)⟩

/-- In-bounds byte access succeeds. -/
lemma byteAt_eq_some (data : List ℕ) (i : ℕ) (h : i < data.length) :
    ∃ b, byteAt data i = some b := by
  exact ⟨data[i], by simp [byteAt, List.getElem?_eq_getElem h]⟩

/-- A 32-bit field read succeeds whenever its four bytes are in bounds. -/
lemma u32opt_eq_some (data : List ℕ) (i : ℕ) (h : i + 4 ≤ data.length) :
    ∃ v, u32opt data i = some v := by
  obtain ⟨b0, h0⟩ := byteAt_eq_some data i (by omega)
  obtain ⟨b1, h1⟩ := byteAt_eq_some data (i + 1) (by omega)
  obtain ⟨b2, h2⟩ := byteAt_eq_some data (i + 2) (by omega)
  obtain ⟨b3, h3⟩ := byteAt_eq_some data (i + 3) (by omega)
  exact ⟨b0 + 256 * b1 + 65536 * b2 + 16777216 * b3,
    by rw [u32opt, h0, h1, h2, h3]; rfl⟩

/-- All field reads of a ConnectionResponse succeed on an 18-byte buffer. -/
lemma readConnResponse_eq_some (data : List ℕ) (h : 18 ≤ data.length) :
    ∃ m, readConnResponse data = some m := by
  obtain ⟨s, hs⟩ := byteAt_eq_some data 1 (by omega)
  obtain ⟨cid, hc⟩ := u32opt_eq_some data 2 (by omega)
  obtain ⟨eid, he⟩ := u32opt_eq_some data 6 (by omega)
  obtain ⟨tick, ht⟩ := u32opt_eq_some data 10 (by omega)
  obtain ⟨tms, hm⟩ := u32opt_eq_some data 14 (by omega)
  exact ⟨ConnResponseMsg.mk s cid eid tick tms,
    by rw [readConnResponse, hs, hc, he, ht, hm]; rfl⟩

/-- All header reads of a ServerSnapshot succeed on a 17-byte buffer. -/
lemma readSnapshotHeader_eq_some (data : List ℕ) (h : 17 ≤ data.length) :
    ∃ m, readSnapshotHeader data = some m := by
  obtain ⟨tick, ht⟩ := u32opt_eq_some data 1 (by omega)
  obtain ⟨base, hb⟩ := u32opt_eq_some data 5 (by omega)
  obtain ⟨tms, hm⟩ := u32opt_eq_some data 9 (by omega)
  obtain ⟨lpi, hl⟩ := u32opt_eq_some data 13 (by omega)
  exact ⟨SnapshotHeader.mk tick base tms lpi,
    by rw [readSnapshotHeader, ht, hb, hm, hl]; rfl⟩

/-- C3: a buffer shorter than 18 bytes makes ConnectionResponse decoding
fail with ShortBuffer and leaves the bot state untouched, a buffer shorter
than 17 bytes does the same for ServerSnapshot decoding, and on buffers of
at least the minimum header size every byte read is in bounds, so decoding
succeeds and cannot crash. -/
theorem c3_short_buffer (d1 d2 d3 d4 : List ℕ) (bot : GameBot) (now : ℚ)
    (h1 : d1.length < 18) (h2 : d2.length < 17)
    (h3 : 18 ≤ d3.length) (h4 : 17 ≤ d4.length) :
    decode_connection_response d1 = .error .ShortBuffer ∧
    parse_connection_response d1 now bot = bot ∧
    decode_snapshot_header d2 = .error .ShortBuffer ∧
    parse_snapshot d2 bot = bot ∧
    (∃ m, decode_connection_response d3 = .ok m) ∧
    (∃ m, decode_snapshot_header d4 = .ok m) := by
  refine ⟨?_, ?_, ?_, ?_, ?_, ?_⟩
  · rw [decode_connection_response, if_pos h1]
  · rw [parse_connection_response, if_pos h1]
  · rw [decode_snapshot_header, if_pos h2]
  · rw [parse_snapshot, if_pos h2]
  · obtain ⟨m, hm⟩ := readConnResponse_eq_some d3 h3
    exact ⟨m, by rw [decode_connection_response, if_neg (by omega), hm]⟩
  · obtain ⟨m, hm⟩ := readSnapshotHeader_eq_some d4 h4
    exact ⟨m, by rw [decode_snapshot_header, if_neg (by omega), hm]⟩

/-- C3 (witness): the short-buffer and success cases at concrete buffers of
lengths 0, 0, 18 and 17. -/
theorem c3_short_buffer_witness :
    ([] : List ℕ).length < 18 ∧ ([] : List ℕ).length < 17 ∧
    18 ≤ (List.replicate 18 0).length ∧ 17 ≤ (List.replicate 17 0).length ∧
    (decode_connection_response [] = .error .ShortBuffer ∧
     parse_connection_response [] 0 init_bot = init_bot ∧
     decode_snapshot_header [] = .error .ShortBuffer ∧
     parse_snapshot [] init_bot = init_bot ∧
     (∃ m, decode_connection_response (List.replicate 18 0) = .ok m) ∧
     (∃ m, decode_snapshot_header (List.replicate 17 0) = .ok m)) :=
  ⟨by simp, by simp, by simp, by simp,
   c3_short_buffer [] [] (List.replicate 18 0) (List.replicate 17 0)
     init_bot 0 (by simp) (by simp) (by simp) (by simp)⟩

/-- C4 (counterexample): an 18-byte response whose success byte is 2 (not 1)
still transitions the bot to connected, because the parser tests
`data[1] != 0`, not equality with 1. -/
theorem c4_success_byte_counterexample :
    (parse_connection_response (4 :: 2 :: List.replicate 16 0) 0
      init_bot).connected = true ∧
    byteD (4 :: 2 :: List.replicate 16 0) 1 ≠ 1 := by
  constructor
  · rw [parse_connection_response, if_neg (by simp), if_pos (by decide)]
  · decide

/-- C4 (amended): on a full response from the disconnected state, the bot
transitions to connected if and only if the success byte is nonzero; a zero
success byte leaves the bot unchanged (hence disconnected) and the connect
decision reports rejection. -/
theorem c4_connected_iff_nonzero (bot : GameBot) (data : List ℕ) (now : ℚ)
    (hb : bot.connected = false) (hlen : 18 ≤ data.length) :
    ((parse_connection_response data now bot).connected = true ↔
      byteD data 1 ≠ 0) ∧
    (byteD data 1 = 0 → parse_connection_response data now bot = bot ∧
      connect_decision (parse_connection_response data now bot)
        = .rejected) := by
  rw [parse_connection_response, if_neg (by omega)]
  by_cases h : byteD data 1 = 0
  · rw [if_neg (not_not_intro h)]
    refine ⟨by simp [hb, h], fun _ => ⟨rfl, ?_⟩⟩
    simp [connect_decision, hb]
  · rw [if_pos h]
    exact ⟨by simpa using h, fun h0 => absurd h0 h⟩

/-- C4 (witness): a fresh bot and a concrete accepted response with success
byte 1. -/
theorem c4_connected_witness :
    init_bot.connected = false ∧
    18 ≤ (4 :: 1 :: List.replicate 16 0 : List ℕ).length ∧
    (((parse_connection_response (4 :: 1 :: List.replicate 16 0) 0
        init_bot).connected = true ↔
      byteD (4 :: 1 :: List.replicate 16 0) 1 ≠ 0) ∧
     (byteD (4 :: 1 :: List.replicate 16 0) 1 = 0 →
      parse_connection_response (4 :: 1 :: List.replicate 16 0) 0 init_bot
        = init_bot ∧
      connect_decision (parse_connection_response
        (4 :: 1 :: List.replicate 16 0) 0 init_bot) = .rejected)) :=
  ⟨rfl, by simp,
   c4_connected_iff_nonzero init_bot (4 :: 1 :: List.replicate 16 0) 0 rfl
     (by simp)⟩

/-- C5 (counterexample): after a successful connection response that set
serverTick to 0, processing a ServerSnapshot whose header carries tick 7
overwrites the bot's serverTick, so the session-identity field is modified
by snapshot processing. -/
theorem c5_snapshot_mutates_counterexample :
    (parse_snapshot (2 :: 7 :: List.replicate 15 0)
      (parse_connection_response (4 :: 1 :: List.replicate 16 0) 0
        init_bot)).server_tick ≠
    (parse_connection_response (4 :: 1 :: List.replicate 16 0) 0
      init_bot).server_tick := by
  rw [parse_connection_response, if_neg (by simp), if_pos (by decide),
    parse_snapshot, if_neg (by simp)]
  decide

/-- C5 (amended): processing a ServerSnapshot never modifies connectionID,
entityID, the connected flag or the recorded start time, but it does
overwrite serverTick and serverTimeMs with the snapshot header's values
(and reparsing a full header always stores those header values). -/
theorem c5_snapshot_updates (bot : GameBot) (data : List ℕ) :
    ((parse_snapshot data bot).connected = bot.connected ∧
     (parse_snapshot data bot).connection_id = bot.connection_id ∧
     (parse_snapshot data bot).entity_id = bot.entity_id ∧
     (parse_snapshot data bot).start_time = bot.start_time) ∧
    (17 ≤ data.length →
      (parse_snapshot data bot).server_tick = u32at data 1 ∧
      (parse_snapshot data bot).server_time = u32at data 9) := by
  by_cases hl : data.length < 17
  · rw [parse_snapshot, if_pos hl]
    exact ⟨⟨rfl, rfl, rfl, rfl⟩, fun h => absurd h (by omega)⟩
  · rw [parse_snapshot, if_neg hl]
    exact ⟨⟨rfl, rfl, rfl, rfl⟩, fun _ => ⟨rfl, rfl⟩⟩

/-- C5 (witness): the amended statement at a fresh bot and a concrete
17-byte snapshot with tick 7. -/
theorem c5_snapshot_witness :
    17 ≤ (2 :: 7 :: List.replicate 15 0 : List ℕ).length ∧
    ((parse_snapshot (2 :: 7 :: List.replicate 15 0)
        init_bot).connection_id = init_bot.connection_id ∧
     (parse_snapshot (2 :: 7 :: List.replicate 15 0) init_bot).entity_id
        = init_bot.entity_id) ∧
    (parse_snapshot (2 :: 7 :: List.replicate 15 0) init_bot).server_tick
      = u32at (2 :: 7 :: List.replicate 15 0) 1 :=
  ⟨by simp,
   ⟨(c5_snapshot_updates init_bot (2 :: 7 :: List.replicate 15 0)).1.2.1,
    (c5_snapshot_updates init_bot (2 :: 7 :: List.replicate 15 0)).1.2.2.1⟩,
   ((c5_snapshot_updates init_bot (2 :: 7 :: List.replicate 15 0)).2
     (by simp)).1⟩

/-- C6 (counterexample): with a single configured bot whose connection
fails, `BotSwarm.run` returns on the no-connections path before the
teardown loop, so that bot's disconnect is invoked zero times, not once. -/
theorem c6_teardown_counterexample :
    run_disconnect_counts [ConnectOutcome.failure] = [0] := by
  rw [run_disconnect_counts, if_pos (by decide)]
  rfl

/-- C6 (amended): when at least one bot connects, every configured bot —
connected or not — has disconnect invoked exactly once; when no bot
connects, the orchestrator returns early and no bot is disconnected. -/
theorem c6_teardown_amended (rs1 rs2 : List ConnectOutcome)
    (h1 : (rs1.filter isSuccess).isEmpty = false)
    (h2 : (rs2.filter isSuccess).isEmpty = true) :
    run_disconnect_counts rs1 = rs1.map (fun _ => 1) ∧
    run_disconnect_counts rs2 = rs2.map (fun _ => 0) := by
  constructor
  · rw [run_disconnect_counts, if_neg (by simp [h1])]
  · rw [run_disconnect_counts, if_pos h2]

/-- C6 (witness): one swarm where a bot connected and one where none did. -/
theorem c6_teardown_witness :
    (([ConnectOutcome.success, ConnectOutcome.failure].filter
        isSuccess).isEmpty = false) ∧
    (([ConnectOutcome.failure, ConnectOutcome.error].filter
        isSuccess).isEmpty = true) ∧
    (run_disconnect_counts [ConnectOutcome.success, ConnectOutcome.failure]
        = [1, 1] ∧
     run_disconnect_counts [ConnectOutcome.failure, ConnectOutcome.error]
        = [0, 0]) :=
  ⟨by decide, by decide,
   by
    simpa using (c6_teardown_amended
      [ConnectOutcome.success, ConnectOutcome.failure]
      [ConnectOutcome.failure, ConnectOutcome.error] (by decide) (by decide))⟩

/-- C7 (counterexample): with 50 configured bots of which 44 connect (88%),
the stress-test orchestrator does not proceed — its only acceptance gate is
the hard-coded 95% check, so there is no 80% configuration under which this
swarm is viable — while the bot-swarm orchestrator proceeds whenever even a
single bot connects, enforcing no 90% threshold. -/
theorem c7_threshold_counterexample :
    stress_test_proceeds 50 44 = false ∧ swarm_run_proceeds 1 = true := by
  constructor
  · rw [stress_test_proceeds, if_pos (by norm_num)]
  · rw [swarm_run_proceeds, if_neg (by omega)]

/-- C7 (amended): the acceptance fraction is not configurable:
`StressTest.run` proceeds to the run phase exactly when connected bots are
at least 95% of those configured (19·num ≤ 20·connected), and
`BotSwarm.run` proceeds exactly when at least one bot connected. -/
theorem c7_threshold_amended (num connected c : ℕ) (hc : 0 < c) :
    (stress_test_proceeds num connected = true ↔
      19 * num ≤ 20 * connected) ∧
    swarm_run_proceeds c = true := by
  constructor
  · rw [stress_test_proceeds]
    by_cases h : (connected : ℚ) < (num : ℚ) * (95 / 100)
    · rw [if_pos h]
      simp only [Bool.false_eq_true, false_iff]
      intro hle
      have hq : (19 * num : ℚ) ≤ 20 * connected := by exact_mod_cast hle
      linarith
    · rw [if_neg h]
      push_neg at h
      have hn : 19 * num ≤ 20 * connected := by
        exact_mod_cast (by linarith : (19 * num : ℚ) ≤ 20 * connected)
      simpa using hn
  · rw [swarm_run_proceeds, if_neg (by omega)]

/-- C7 (witness): 48 of 50 connected (96%) passes the hard-coded 95% gate,
and a swarm with 44 connected bots proceeds in `BotSwarm.run`. -/
theorem c7_threshold_witness :
    0 < 44 ∧ stress_test_proceeds 50 48 = true ∧
    swarm_run_proceeds 44 = true :=
  ⟨by omega,
   (c7_threshold_amended 50 48 44 (by omega)).1.mpr (by omega),
   (c7_threshold_amended 50 48 44 (by omega)).2⟩

/-- On nonempty data the source percentile is the nearest-rank percentile at
fraction p/100. -/
lemma percentile_eq_nearestRank (data : List ℚ) (p : ℕ) (h : data ≠ []) :
    percentile data p = nearestRankClaim data ((p : ℚ) / 100) := by
  rw [percentile, nearestRankClaim, if_neg (by simp [h]),
    List.length_insertionSort,
    pyTrunc_of_nonneg (by positivity), mul_div_assoc]

/-- C8: the p95 and p99 percentiles are the nearest-rank percentiles —
sort ascending, index floor(n·0.95) respectively floor(n·0.99), clamped to
the last index — and on the sample set [10, 20, ..., 100] p95 selects
index 9, the value 100. -/
theorem c8_percentile_nearest_rank (data : List ℚ) (h : data ≠ []) :
    percentile data 95 = nearestRankClaim data (95 / 100) ∧
    percentile data 99 = nearestRankClaim data (99 / 100) ∧
    percentile [10, 20, 30, 40, 50, 60, 70, 80, 90, 100] 95 = 100 := by
  refine ⟨?_, ?_, ?_⟩
  · simpa using percentile_eq_nearestRank data 95 h
  · simpa using percentile_eq_nearestRank data 99 h
  · have hs : ([10, 20, 30, 40, 50, 60, 70, 80, 90, 100] :
        List ℚ).insertionSort (· ≤ ·)
        = [10, 20, 30, 40, 50, 60, 70, 80, 90, 100] := by decide
    rw [percentile, if_neg (by decide), hs,
      show ([10, 20, 30, 40, 50, 60, 70, 80, 90, 100] :
        List ℚ).length = 10 from rfl]
    have h9 : pyTrunc (((10 : ℕ) : ℚ) * ((95 : ℕ) : ℚ) / 100) = 9 := by
      rw [pyTrunc]
      norm_num
    rw [h9]
    decide

/-- C8 (witness): the nearest-rank equality and the index-9 selection at
the concrete sample set [10, 20, ..., 100]. -/
theorem c8_percentile_witness :
    ([10, 20, 30, 40, 50, 60, 70, 80, 90, 100] : List ℚ) ≠ [] ∧
    percentile [10, 20, 30, 40, 50, 60, 70, 80, 90, 100] 95
      = nearestRankClaim [10, 20, 30, 40, 50, 60, 70, 80, 90, 100]
          (95 / 100) ∧
    percentile [10, 20, 30, 40, 50, 60, 70, 80, 90, 100] 95 = 100 :=
  ⟨by simp,
   (c8_percentile_nearest_rank _ (by simp)).1,
   (c8_percentile_nearest_rank
     [10, 20, 30, 40, 50, 60, 70, 80, 90, 100] (by simp)).2.2⟩

/-- C9: with at least one bot and positive duration, the upstream verdict
passes exactly when the average per-bot upstream rate (total bytes over bot
count and duration) is at most 2048 bytes/sec, the downstream verdict
analogously against 20480 bytes/sec; 10 bots at 2048 bytes each over 10
seconds pass, 25000 bytes each over the same 10 seconds fail. -/
theorem c9_budget_verdicts (per_up per_down n : ℕ) (d : ℚ)
    (hn : 0 < n) (_hd : 0 < d) :
    (up_ok (n * per_up) n d = true ↔ (per_up : ℚ) / d ≤ 2048) ∧
    (down_ok (n * per_down) n d = true ↔ (per_down : ℚ) / d ≤ 20480) ∧
    up_ok (10 * 2048) 10 10 = true ∧
    up_ok (10 * 25000) 10 10 = false := by
  have hn0 : (n : ℚ) ≠ 0 := by positivity
  have hkey : ∀ m : ℕ, ((n * m : ℕ) : ℚ) / (n : ℚ) / d = (m : ℚ) / d := by
    intro m
    push_cast
    rw [mul_div_cancel_left₀ _ hn0]
  refine ⟨?_, ?_, ?_, ?_⟩
  · rw [up_ok, hkey]
    simp
  · rw [down_ok, hkey]
    simp
  · simp only [up_ok, decide_eq_true_eq]
    norm_num
  · simp only [up_ok, decide_eq_false_iff_not]
    norm_num

/-- C9 (witness): the verdict characterization and both concrete examples
at 10 bots over a 10-second run. -/
theorem c9_budget_witness :
    0 < 10 ∧ (0 : ℚ) < 10 ∧
    (up_ok (10 * 2048) 10 10 = true ↔ ((2048 : ℕ) : ℚ) / 10 ≤ 2048) ∧
    up_ok (10 * 2048) 10 10 = true ∧
    up_ok (10 * 25000) 10 10 = false :=
  ⟨by omega, by norm_num,
   (c9_budget_verdicts 2048 0 10 10 (by omega) (by norm_num)).1,
   (c9_budget_verdicts 2048 0 10 10 (by omega) (by norm_num)).2.2.1,
   (c9_budget_verdicts 2048 0 10 10 (by omega) (by norm_num)).2.2.2⟩

/-- C10: the elapsed-duration denominator of get_stats is clamped to at
least 0.001 seconds — also when the start time was never set — so it is
nonzero and every per-second rate field is the counter genuinely divided by
it. -/
theorem c10_no_division_by_zero (now start_time : ℚ)
    (packets_sent packets_received bytes_sent bytes_received
      snapshot_count : ℕ) :
    1 / 1000 ≤ get_stats_elapsed now start_time ∧
    get_stats_elapsed now start_time ≠ 0 ∧
    (get_stats_rates packets_sent packets_received bytes_sent
        bytes_received snapshot_count now start_time).bytes_sent_per_sec *
      get_stats_elapsed now start_time = bytes_sent ∧
    (get_stats_rates packets_sent packets_received bytes_sent
        bytes_received snapshot_count now start_time).snapshots_per_sec *
      get_stats_elapsed now start_time = snapshot_count := by
  have h1 : 1 / 1000 ≤ get_stats_elapsed now start_time := by
    rw [get_stats_elapsed]
    split
    · exact le_max_right _ _
    · exact le_refl _
  have h0 : get_stats_elapsed now start_time ≠ 0 := by
    intro h
    rw [h] at h1
    norm_num at h1
  refine ⟨h1, h0, ?_, ?_⟩
  · simp only [get_stats_rates]
    exact div_mul_cancel₀ _ h0
  · simp only [get_stats_rates]
    exact div_mul_cancel₀ _ h0
